import Mathlib

/-!
Verification of the `CellManager` driver from `src/cell_manager.cpp`
(Biospheres 2, GPU-driven cell simulation).

The CPU-side driver is embedded shallowly: GPU buffers become total
functions from (record or byte) indices to values, float scalars are
idealised as exact rationals (reals for the ray-sphere picker, which
needs a square root), and each `CellManager` member function that a
claim mentions becomes a Lean function on an explicit state record.
GPU counter buffers are modelled at byte granularity because the source
addresses them by byte offset (`glNamedBufferSubData(buf, 4, 4, ...)`).

`config::MAX_CELLS` lives in `config.h`, which is not part of the
sources under verification; it is passed as an explicit `maxCells`
argument to the operations that consult it.
-/

set_option maxRecDepth 8192

namespace Biospheres

/-- Rational 4-vector modelling `glm::vec4` (floats idealised as exact rationals). -/
structure Vec4 where
  x : ℚ
  y : ℚ
  z : ℚ
  w : ℚ
deriving DecidableEq

/-- Rational 3-vector modelling `glm::vec3`. -/
structure Vec3q where
  x : ℚ
  y : ℚ
  z : ℚ
deriving DecidableEq

/-- Modelled from the spec: the `ComputeCell` record is declared in
`cell_manager.h`, which is not under `src/`. Fields follow spec section 3
(quad-vectors `positionAndMass`, `velocity`, `acceleration`, `orientation`,
scalars `age` and `splitTimer`, and the integer `modeIndex`); these are
exactly the members `cell_manager.cpp` accesses. -/
structure ComputeCell where
  positionAndMass : Vec4
  velocity : Vec4
  acceleration : Vec4
  orientation : Vec4
  age : ℚ
  splitTimer : ℚ
  modeIndex : Int
deriving DecidableEq

/-- The value-initialised record `ComputeCell{}` (all fields zero). -/
def ComputeCell.zero : ComputeCell :=
  { positionAndMass := ⟨0, 0, 0, 0⟩
    velocity := ⟨0, 0, 0, 0⟩
    acceleration := ⟨0, 0, 0, 0⟩
    orientation := ⟨0, 0, 0, 0⟩
    age := 0
    splitTimer := 0
    modeIndex := 0 }

instance : Inhabited ComputeCell := ⟨ComputeCell.zero⟩

/-- Modelled from the spec: `SelectedCellInfo` is declared in
`cell_manager.h`, which is not under `src/`. Its fields are the ones the
selection and drag code in `cell_manager.cpp` reads and writes. -/
structure SelectedCellInfo where
  cellIndex : Int
  cellData : ComputeCell
  isValid : Bool
  dragDistance : ℚ
  dragOffset : Vec3q
deriving DecidableEq

/-! ### Byte- and record-granular buffer primitives

`glNamedBufferSubData(buf, offset, size, src)` on the counter buffers is a
byte-ranged write; `glCopyNamedBufferSubData(src, dst, 0, 0, len)` copies a
byte range; `glClearNamedBufferData(..., nullptr)` zero-fills. Buffers are
total functions; capacity bounds are stated in the theorems, not baked into
the carrier. -/

/-- Write the byte list `bs` into buffer `f` starting at byte offset `o`. -/
def writeBytes (f : Nat → Nat) (o : Nat) (bs : List Nat) : Nat → Nat :=
  fun j => if o ≤ j ∧ j < o + bs.length then bs.getD (j - o) (f j) else f j

/-- Copy the first `len` bytes of `src` over `dst` (both at offset 0),
as `glCopyNamedBufferSubData(src, dst, 0, 0, len)` does. -/
def copyBytes (src dst : Nat → Nat) (len : Nat) : Nat → Nat :=
  fun j => if j < len then src j else dst j

/-- Little-endian byte image of a 32-bit unsigned integer. -/
def u32le (v : Nat) : List Nat :=
  [v % 256, v / 256 % 256, v / 65536 % 256, v / 16777216 % 256]

/-- Read the 32-bit little-endian unsigned integer at byte offset `o`. -/
def readU32 (f : Nat → Nat) (o : Nat) : Nat :=
  f o + 256 * f (o + 1) + 65536 * f (o + 2) + 16777216 * f (o + 3)

/-- Write the records `cs` into a record-granular buffer starting at record
index `o` (the record-level image of a `glNamedBufferSubData` at byte offset
`o * sizeof(ComputeCell)`). -/
def writeRecords (buf : Nat → ComputeCell) (o : Nat) (cs : List ComputeCell) :
    Nat → ComputeCell :=
  fun j => if o ≤ j ∧ j < o + cs.length then cs.getD (j - o) (buf j) else buf j

/-- Write one record at record index `k`. -/
def writeRecord (buf : Nat → ComputeCell) (k : Nat) (c : ComputeCell) :
    Nat → ComputeCell :=
  fun j => if j = k then c else buf j

/-! ### The driver state

One field per `CellManager` member that the verified operations touch.
`cellBuffer` is the triple-buffered cell store; `cellAdditionBuffer` is the
addition queue (record-granular, capacity `MAX_CELLS / 2` records);
`gpuCellCountBuffer` and `stagingCellCountBuffer` are the 8-byte counter
pair and its host-visible staging mirror (byte-granular). `warningCount`
counts the `"Warning: Maximum cell count reached!"` messages printed to
`std::cout`. -/
structure CellManagerState where
  cellCount : Int
  cpuCells : List ComputeCell
  cellStagingBuffer : List ComputeCell
  cpuPendingCellCount : Int
  gpuPendingCellCount : Nat
  bufferRotation : Nat
  cellBuffer : Fin 3 → Nat → ComputeCell
  instanceBuffer : Nat → Nat
  cellAdditionBuffer : Nat → ComputeCell
  gridBuffer : Nat → Nat
  gridCountBuffer : Nat → Nat
  gridOffsetBuffer : Nat → Nat
  gpuCellCountBuffer : Nat → Nat
  stagingCellCountBuffer : Nat → Nat
  selectedCell : SelectedCellInfo
  isDraggingCell : Bool
  warningCount : Nat

/-! ### Operations translated from `src/cell_manager.cpp` -/

/-- `CellManager::addCellsToGPUBuffer` (cell_manager.cpp:218).
Rejects (with a warning) when `cellCount + newCellCount > MAX_CELLS`;
otherwise uploads the batch into the addition queue at record offset
`gpuPendingCellCount`, bumps `gpuPendingCellCount`, writes it into bytes
`[4, 8)` of the device counter buffer, and copies the 8-byte pair into the
staging mirror. `cellCount` is deliberately not touched (the source comments
it out). -/
def addCellsToGPUBuffer (maxCells : Nat) (s : CellManagerState)
    (cells : List ComputeCell) : CellManagerState :=
  let newCellCount := cells.length
  if s.cellCount + (newCellCount : Int) > (maxCells : Int) then
    { s with warningCount := s.warningCount + 1 }
  else
    let queue' := writeRecords s.cellAdditionBuffer s.gpuPendingCellCount cells
    let pending' := s.gpuPendingCellCount + newCellCount
    let dev' := writeBytes s.gpuCellCountBuffer 4 (u32le pending')
    { s with
      cellAdditionBuffer := queue'
      gpuPendingCellCount := pending'
      gpuCellCountBuffer := dev'
      stagingCellCountBuffer := copyBytes dev' s.stagingCellCountBuffer 8 }

/-- `CellManager::addCellToGPUBuffer` (cell_manager.cpp:253). -/
def addCellToGPUBuffer (maxCells : Nat) (s : CellManagerState)
    (newCell : ComputeCell) : CellManagerState :=
  addCellsToGPUBuffer maxCells s [newCell]

/-- `CellManager::addCellToStagingBuffer` (cell_manager.cpp:258).
Rejects (with a warning) when `cellCount + 1 > MAX_CELLS`; otherwise makes a
copy of the record with `positionAndMass.w` forced to `1.0f` and appends it
to both the staging vector and the CPU mirror. -/
def addCellToStagingBuffer (maxCells : Nat) (s : CellManagerState)
    (newCell : ComputeCell) : CellManagerState :=
  if s.cellCount + 1 > (maxCells : Int) then
    { s with warningCount := s.warningCount + 1 }
  else
    let correctedCell : ComputeCell :=
      { newCell with
        positionAndMass :=
          ⟨newCell.positionAndMass.x, newCell.positionAndMass.y,
           newCell.positionAndMass.z, 1⟩ }
    { s with
      cellStagingBuffer := s.cellStagingBuffer ++ [correctedCell]
      cpuCells := s.cpuCells ++ [correctedCell]
      cpuPendingCellCount := s.cpuPendingCellCount + 1 }

/-- `CellManager::addStagedCellsToGPUBuffer` (cell_manager.cpp:276).
Note the staging vector is cleared and `cpuPendingCellCount` reset even when
the inner upload was rejected, exactly as in the source. -/
def addStagedCellsToGPUBuffer (maxCells : Nat) (s : CellManagerState) :
    CellManagerState :=
  if s.cellStagingBuffer = [] then s
  else
    let s' := addCellsToGPUBuffer maxCells s s.cellStagingBuffer
    { s' with cellStagingBuffer := [], cpuPendingCellCount := 0 }

/-- `CellManager::getCellData` (cell_manager.cpp:317). A `const` member: it
returns a value and mutates nothing, which the embedding reflects by being a
plain function of the state. -/
def getCellData (s : CellManagerState) (index : Int) : ComputeCell :=
  if 0 ≤ index ∧ index < s.cellCount then
    s.cpuCells.getD index.toNat ComputeCell.zero
  else
    ComputeCell.zero

/-- `CellManager::updateCellData` (cell_manager.cpp:326). In range, writes the
new record to the CPU mirror, refreshes the selected-cell cache when that
index is selected, and re-uploads the record to `cellBuffer[0]` and
`cellBuffer[1]` (the source loop runs `i = 0, 1`). -/
def updateCellData (s : CellManagerState) (index : Int) (newData : ComputeCell) :
    CellManagerState :=
  if 0 ≤ index ∧ index < s.cellCount then
    let cpuCells' := s.cpuCells.set index.toNat newData
    let sel' :=
      if s.selectedCell.isValid ∧ s.selectedCell.cellIndex = index then
        { s.selectedCell with cellData := newData }
      else s.selectedCell
    let written := cpuCells'.getD index.toNat ComputeCell.zero
    let bufs' : Fin 3 → Nat → ComputeCell := fun i =>
      if i.val < 2 then writeRecord (s.cellBuffer i) index.toNat written
      else s.cellBuffer i
    { s with cpuCells := cpuCells', selectedCell := sel', cellBuffer := bufs' }
  else s

/-- `CellManager::dragSelectedCell` (cell_manager.cpp:968). When a cell is
selected, overwrites its position with the host-supplied world position
(mass component untouched), zeroes the three velocity components, refreshes
the selected-cell cache, and re-uploads the record to all three GPU cell
buffers (the source loop runs `i = 0, 1, 2`). -/
def dragSelectedCell (s : CellManagerState) (newWorldPosition : Vec3q) :
    CellManagerState :=
  if s.selectedCell.isValid then
    let idx := s.selectedCell.cellIndex.toNat
    let old := s.cpuCells.getD idx ComputeCell.zero
    let upd : ComputeCell :=
      { old with
        positionAndMass :=
          ⟨newWorldPosition.x, newWorldPosition.y, newWorldPosition.z,
           old.positionAndMass.w⟩
        velocity := ⟨0, 0, 0, old.velocity.w⟩ }
    let cpuCells' := s.cpuCells.set idx upd
    let written := cpuCells'.getD idx ComputeCell.zero
    { s with
      cpuCells := cpuCells'
      selectedCell := { s.selectedCell with cellData := written }
      cellBuffer := fun i => writeRecord (s.cellBuffer i) idx written }
  else s

/-- `CellManager::clearSelection` (cell_manager.cpp:994). Only `cellIndex`,
`isValid` and the dragging flag are reset; the cached `cellData`,
`dragDistance` and `dragOffset` keep their old values. -/
def clearSelection (s : CellManagerState) : CellManagerState :=
  { s with
    selectedCell := { s.selectedCell with cellIndex := -1, isValid := false }
    isDraggingCell := false }

/-- The `u_draggedCellIndex` uniform as computed identically in
`runPhysicsCompute` (cell_manager.cpp:533) and `runUpdateCompute`
(cell_manager.cpp:567): the selected cell's index while dragging, else `-1`. -/
def draggedCellIndexUniform (s : CellManagerState) : Int :=
  if s.isDraggingCell ∧ s.selectedCell.isValid then s.selectedCell.cellIndex
  else -1

/-- Modelled from the spec: `shaders/cell_physics_spatial.comp` and
`shaders/cell_update.comp` are not under `src/`. Per spec sections 4.3-4.4
("Dragged-cell bypass", "The dragged cell is skipped"), a physics or
integration dispatch applies its per-cell transform `f` to every live cell
except the one whose index equals the `u_draggedCellIndex` uniform. -/
def stageApplyPerCell (f : Nat → ComputeCell → ComputeCell) (draggedIndex : Int)
    (liveCount : Nat) (buf : Nat → ComputeCell) : Nat → ComputeCell :=
  fun j => if j < liveCount ∧ (j : Int) ≠ draggedIndex then f j (buf j) else buf j

/-- `CellManager::applyCellAdditions` (cell_manager.cpp:600). The dispatch of
`shaders/apply_additions.comp` is not under `src/`, so its effect on the three
cell buffers and on the counter bytes is left arbitrary (the parameters
`dispatchedCellBuffers` and `dispatchedCounter`). After the dispatch and
barrier, the driver writes a zero `GLuint` at byte offset 4 of the counter
buffer and copies the 8-byte pair into the staging mirror; those two actions
are read directly off the source. -/
def applyCellAdditions (s : CellManagerState)
    (dispatchedCellBuffers : Fin 3 → Nat → ComputeCell)
    (dispatchedCounter : Nat → Nat) : CellManagerState :=
  let dev' := writeBytes dispatchedCounter 4 (u32le 0)
  { s with
    cellBuffer := dispatchedCellBuffers
    gpuCellCountBuffer := dev'
    stagingCellCountBuffer := copyBytes dev' s.stagingCellCountBuffer 8 }

/-- `CellManager::resetSimulation` (cell_manager.cpp:626). Clears the CPU-side
vectors and counts, resets the rotation index, clears the selection, zeroes
both counter words byte-wise, zero-fills every GPU buffer, and syncs the
staging mirror from the device pair. -/
def resetSimulation (s : CellManagerState) : CellManagerState :=
  let afterClearSelection := clearSelection s
  let dev' :=
    writeBytes (writeBytes s.gpuCellCountBuffer 0 (u32le 0)) 4 (u32le 0)
  { afterClearSelection with
    cpuCells := []
    cellStagingBuffer := []
    cellCount := 0
    cpuPendingCellCount := 0
    gpuPendingCellCount := 0
    bufferRotation := 0
    gpuCellCountBuffer := dev'
    cellBuffer := fun _ _ => ComputeCell.zero
    instanceBuffer := fun _ => 0
    cellAdditionBuffer := fun _ => ComputeCell.zero
    gridBuffer := fun _ => 0
    gridCountBuffer := fun _ => 0
    gridOffsetBuffer := fun _ => 0
    stagingCellCountBuffer := copyBytes dev' s.stagingCellCountBuffer 8 }

/-! ### The frame driver's dispatch order -/

/-- One observable action of `CellManager::updateCells` (cell_manager.cpp:351). -/
inductive FrameEvent where
  | copyCountsToStaging
  | uploadStagedCells
  | spatialGridUpdate
  | physicsCompute
  | updateCompute
  | internalUpdateCompute
  | applyAdditions
  | rotateBuffers
deriving DecidableEq

/-- The sequence of actions one call to `CellManager::updateCells`
(cell_manager.cpp:351) performs, as a function of the values that steer its
branches: `cellCount` (read from `countPtr[0]` at frame start),
`cpuPendingCellCount`, and the previous frame's device `pendingCount` (read
from `countPtr[1]`). The last value steers nothing: the guard
`if (gpuPendingCellCount > 0)` around `applyCellAdditions` is commented out
in the source, so the apply dispatch is unconditional and always follows the
grid, physics, integration and internal stages. -/
def updateCellsTrace (cellCount cpuPendingCellCount gpuPendingCellCount : Int) :
    List FrameEvent :=
  [FrameEvent.copyCountsToStaging]
    ++ (if cpuPendingCellCount > 0 then [FrameEvent.uploadStagedCells] else [])
    ++ (if cellCount > 0 then
          [FrameEvent.spatialGridUpdate, FrameEvent.physicsCompute,
           FrameEvent.updateCompute, FrameEvent.internalUpdateCompute]
        else [])
    ++ [FrameEvent.copyCountsToStaging, FrameEvent.applyAdditions,
        FrameEvent.rotateBuffers]

/-! ### Ray-sphere intersection (real-valued model)

`CellManager::raySphereIntersection` (cell_manager.cpp:1143) works on
`float`; the embedding idealises the arithmetic over the reals, where the
square root is exact. -/

/-- Real 3-vector for the picking geometry. -/
structure Vec3 where
  x : ℝ
  y : ℝ
  z : ℝ

/-- Componentwise difference, `glm` vector subtraction. -/
def Vec3.sub (a b : Vec3) : Vec3 := ⟨a.x - b.x, a.y - b.y, a.z - b.z⟩

/-- Componentwise sum, `glm` vector addition. -/
def Vec3.add (a b : Vec3) : Vec3 := ⟨a.x + b.x, a.y + b.y, a.z + b.z⟩

/-- Scalar multiple, `glm` scalar-vector product. -/
def Vec3.smul (t : ℝ) (a : Vec3) : Vec3 := ⟨t * a.x, t * a.y, t * a.z⟩

/-- `glm::dot`. -/
def Vec3.dot (a b : Vec3) : ℝ := a.x * b.x + a.y * b.y + a.z * b.z

/-- The point `rayOrigin + t * rayDirection` on the ray. -/
def rayPoint (rayOrigin rayDirection : Vec3) (t : ℝ) : Vec3 :=
  Vec3.add rayOrigin (Vec3.smul t rayDirection)

/-- The squared distance from the ray point at parameter `t` to the sphere
center equals the squared radius: the claim's quadratic, written with the
source's vectors. -/
def sphereHit (rayOrigin rayDirection sphereCenter : Vec3) (sphereRadius t : ℝ) :
    Prop :=
  Vec3.dot (Vec3.sub (rayPoint rayOrigin rayDirection t) sphereCenter)
      (Vec3.sub (rayPoint rayOrigin rayDirection t) sphereCenter)
    = sphereRadius * sphereRadius

/-- `CellManager::raySphereIntersection` (cell_manager.cpp:1143) over the
reals. The C++ out-parameter `distance` together with the `bool` result
becomes an `Option ℝ`: `none` when the function returns `false` (leaving
`distance` unassigned), `some d` when it returns `true` having set
`distance = d`. -/
noncomputable def raySphereIntersection (rayOrigin rayDirection sphereCenter : Vec3)
    (sphereRadius : ℝ) : Option ℝ :=
  let oc := Vec3.sub rayOrigin sphereCenter
  let a := Vec3.dot rayDirection rayDirection
  let b := 2 * Vec3.dot oc rayDirection
  let c := Vec3.dot oc oc - sphereRadius * sphereRadius
  let discriminant := b * b - 4 * a * c
  if discriminant < 0 then none
  else
    let sqrtDiscriminant := Real.sqrt discriminant
    let t1 := (-b - sqrtDiscriminant) / (2 * a)
    let t2 := (-b + sqrtDiscriminant) / (2 * a)
    if t1 > 0.001 then some t1
    else if t2 > 0.001 then some t2
    else none

/-! ### Concrete states for the scenario theorems -/

/-- A fresh `CellManager` state with empty CPU vectors, zeroed buffers and no
selection, used as the base of the concrete scenarios below. -/
def emptyState : CellManagerState :=
  { cellCount := 0
    cpuCells := []
    cellStagingBuffer := []
    cpuPendingCellCount := 0
    gpuPendingCellCount := 0
    bufferRotation := 0
    cellBuffer := fun _ _ => ComputeCell.zero
    instanceBuffer := fun _ => 0
    cellAdditionBuffer := fun _ => ComputeCell.zero
    gridBuffer := fun _ => 0
    gridCountBuffer := fun _ => 0
    gridOffsetBuffer := fun _ => 0
    gpuCellCountBuffer := fun _ => 0
    stagingCellCountBuffer := fun _ => 0
    selectedCell :=
      { cellIndex := -1, cellData := ComputeCell.zero, isValid := false,
        dragDistance := 0, dragOffset := ⟨0, 0, 0⟩ }
    isDraggingCell := false
    warningCount := 0 }

/-- A recognisable non-zero cell record for concrete scenarios. -/
def markerCell : ComputeCell := { ComputeCell.zero with age := 9 }

/-- A host-authored record whose mass component is `7`, not `1`. -/
def massSevenCell : ComputeCell :=
  { ComputeCell.zero with positionAndMass := ⟨1, 2, 3, 7⟩ }

/-- A state with one live cell that is selected and being dragged. -/
def dragState : CellManagerState :=
  { emptyState with
    cellCount := 1
    cpuCells := [markerCell]
    selectedCell :=
      { cellIndex := 0, cellData := markerCell, isValid := true,
        dragDistance := 0, dragOffset := ⟨0, 0, 0⟩ }
    isDraggingCell := true }

/-! ### Shared list-indexing lemmas -/

theorem getD_eq_get {α : Type _} (l : List α) (n : Nat) (d : α)
    (h : n < l.length) : l.getD n d = l.get ⟨n, h⟩ := by
  rw [List.getD_eq_getElem?_getD, List.getElem?_eq_getElem h]
  rfl

theorem getD_set_self {α : Type _} (l : List α) (n : Nat) (a d : α)
    (h : n < l.length) : (l.set n a).getD n d = a := by
  have h' : n < (l.set n a).length := by simpa using h
  rw [List.getD_eq_getElem?_getD, List.getElem?_eq_getElem h',
    List.getElem_set_self]
  rfl

/-! ### Claim theorems -/

/-- C4. If `cellCount + 1 > MAX_CELLS`, `addCellToStagingBuffer` rejects the
record with a warning and changes nothing else: the post-state is the
pre-state with only the warning emitted, so in particular
`cellStagingBuffer`, `cpuCells` and `cpuPendingCellCount` are exactly as
before the call. -/
theorem addCellToStagingBuffer_rejects_atomically (maxCells : Nat)
    (s : CellManagerState) (newCell : ComputeCell)
    (h : s.cellCount + 1 > (maxCells : Int)) :
    (addCellToStagingBuffer maxCells s newCell).cellStagingBuffer
        = s.cellStagingBuffer
    ∧ (addCellToStagingBuffer maxCells s newCell).cpuCells = s.cpuCells
    ∧ (addCellToStagingBuffer maxCells s newCell).cpuPendingCellCount
        = s.cpuPendingCellCount
    ∧ addCellToStagingBuffer maxCells s newCell
        = { s with warningCount := s.warningCount + 1 } := by
  unfold addCellToStagingBuffer
  rw [if_pos h]
  exact ⟨rfl, rfl, rfl, rfl⟩

/-- Witness for C4: with `MAX_CELLS = 4` and four live cells, ingress of one
more record is rejected atomically. -/
theorem addCellToStagingBuffer_rejects_atomically_witness :
    ({ emptyState with cellCount := 4 } : CellManagerState).cellCount + 1
        > ((4 : Nat) : Int)
    ∧ (addCellToStagingBuffer 4 { emptyState with cellCount := 4 } massSevenCell
        = { { emptyState with cellCount := 4 } with warningCount :=
              ({ emptyState with cellCount := 4 } : CellManagerState).warningCount
                + 1 }) :=
  ⟨by decide,
   (addCellToStagingBuffer_rejects_atomically 4
      { emptyState with cellCount := 4 } massSevenCell (by decide)).2.2.2⟩

/-- C3 counterexample: `addCellToStagingBuffer` does not preserve the
caller-supplied mass. Ingesting a record with mass `7` into the empty state
stores a record whose `positionAndMass.w` is not `7` (it is forced to `1`). -/
theorem addCellToStagingBuffer_mass_not_preserved :
    ((addCellToStagingBuffer 1024 emptyState massSevenCell).cpuCells.getD 0
        ComputeCell.zero).positionAndMass.w
      ≠ massSevenCell.positionAndMass.w := by
  decide

/-- C3 amended: for every record passed to `addCellToStagingBuffer` that is
admitted, the stored record has `positionAndMass.w` set to the fixed value
`1` — the caller-supplied mass is overwritten, not preserved — and all other
fields are kept; the record is appended to both the staging vector and the
CPU mirror and the pending count grows by one. -/
theorem addCellToStagingBuffer_forces_unit_w (maxCells : Nat)
    (s : CellManagerState) (newCell : ComputeCell)
    (h : ¬ s.cellCount + 1 > (maxCells : Int)) :
    addCellToStagingBuffer maxCells s newCell
      = { s with
          cellStagingBuffer := s.cellStagingBuffer ++
            [{ newCell with positionAndMass :=
                ⟨newCell.positionAndMass.x, newCell.positionAndMass.y,
                 newCell.positionAndMass.z, 1⟩ }]
          cpuCells := s.cpuCells ++
            [{ newCell with positionAndMass :=
                ⟨newCell.positionAndMass.x, newCell.positionAndMass.y,
                 newCell.positionAndMass.z, 1⟩ }]
          cpuPendingCellCount := s.cpuPendingCellCount + 1 } := by
  unfold addCellToStagingBuffer
  rw [if_neg h]

/-- Witness for C3's amended theorem: the mass-7 record is admitted into the
empty state and stored with `positionAndMass.w = 1`. -/
theorem addCellToStagingBuffer_forces_unit_w_witness :
    ¬ (emptyState.cellCount + 1 > ((1024 : Nat) : Int))
    ∧ addCellToStagingBuffer 1024 emptyState massSevenCell
      = { emptyState with
          cellStagingBuffer := emptyState.cellStagingBuffer ++
            [{ massSevenCell with positionAndMass :=
                ⟨massSevenCell.positionAndMass.x, massSevenCell.positionAndMass.y,
                 massSevenCell.positionAndMass.z, 1⟩ }]
          cpuCells := emptyState.cpuCells ++
            [{ massSevenCell with positionAndMass :=
                ⟨massSevenCell.positionAndMass.x, massSevenCell.positionAndMass.y,
                 massSevenCell.positionAndMass.z, 1⟩ }]
          cpuPendingCellCount := emptyState.cpuPendingCellCount + 1 } :=
  ⟨by decide,
   addCellToStagingBuffer_forces_unit_w 1024 emptyState massSevenCell (by decide)⟩

/-- C9. Provided the CPU mirror holds at least `cellCount` records (the
invariant under which the C++ `cpuCells[index]` access is defined),
`getCellData` returns the value-initialised zero record for every index that
is negative or at least `cellCount`, without any out-of-bounds access, and
returns `cpuCells[index]` for every in-range index. The source method is
`const`; the embedding reflects that it mutates nothing by being a plain
function of the state. -/
theorem getCellData_in_bounds (s : CellManagerState) (index : Int)
    (hlen : s.cellCount ≤ (s.cpuCells.length : Int)) :
    ((index < 0 ∨ s.cellCount ≤ index) → getCellData s index = ComputeCell.zero)
    ∧ (0 ≤ index → index < s.cellCount →
        ∃ hi : index.toNat < s.cpuCells.length,
          getCellData s index = s.cpuCells.get ⟨index.toNat, hi⟩) := by
  constructor
  · intro hout
    unfold getCellData
    rw [if_neg]
    rintro ⟨h0, h1⟩
    rcases hout with h | h <;> omega
  · intro h0 h1
    have hi : index.toNat < s.cpuCells.length := by omega
    refine ⟨hi, ?_⟩
    unfold getCellData
    rw [if_pos ⟨h0, h1⟩]
    exact getD_eq_get _ _ _ hi

/-- Witness for C9: in a one-cell state, index `0` returns the stored cell
and index `5` (and `-1`, by the same theorem at another instantiation of the
disjunction) returns the zero record. -/
theorem getCellData_in_bounds_witness :
    ({ emptyState with cellCount := 1, cpuCells := [markerCell] }
          : CellManagerState).cellCount
        ≤ (({ emptyState with cellCount := 1, cpuCells := [markerCell] }
          : CellManagerState).cpuCells.length : Int)
    ∧ (((5 : Int) < 0 ∨
          ({ emptyState with cellCount := 1, cpuCells := [markerCell] }
            : CellManagerState).cellCount ≤ 5) →
        getCellData { emptyState with cellCount := 1, cpuCells := [markerCell] } 5
          = ComputeCell.zero)
    ∧ ((0 : Int) ≤ 0 →
        (0 : Int) < ({ emptyState with cellCount := 1, cpuCells := [markerCell] }
          : CellManagerState).cellCount →
        ∃ hi : (0 : Int).toNat <
            ({ emptyState with cellCount := 1, cpuCells := [markerCell] }
              : CellManagerState).cpuCells.length,
          getCellData { emptyState with cellCount := 1, cpuCells := [markerCell] } 0
            = ({ emptyState with cellCount := 1, cpuCells := [markerCell] }
                : CellManagerState).cpuCells.get ⟨(0 : Int).toNat, hi⟩) :=
  ⟨by decide,
   (getCellData_in_bounds
      { emptyState with cellCount := 1, cpuCells := [markerCell] } 5
      (by decide)).1,
   (getCellData_in_bounds
      { emptyState with cellCount := 1, cpuCells := [markerCell] } 0
      (by decide)).2⟩

/-- C5. Whatever the `apply_additions` dispatch did to the counter pair,
after `applyCellAdditions` returns the 32-bit unsigned integer at byte
offset 4 of the device counter buffer (`pendingCount`) is zero, and the
8-byte pair has been copied into the host-visible staging buffer, so both
words of the staging mirror equal the device pair's. -/
theorem applyCellAdditions_zeroes_pending (s : CellManagerState)
    (dispatchedCellBuffers : Fin 3 → Nat → ComputeCell)
    (dispatchedCounter : Nat → Nat) :
    readU32 ((applyCellAdditions s dispatchedCellBuffers
        dispatchedCounter).gpuCellCountBuffer) 4 = 0
    ∧ readU32 ((applyCellAdditions s dispatchedCellBuffers
        dispatchedCounter).stagingCellCountBuffer) 0
      = readU32 ((applyCellAdditions s dispatchedCellBuffers
        dispatchedCounter).gpuCellCountBuffer) 0
    ∧ readU32 ((applyCellAdditions s dispatchedCellBuffers
        dispatchedCounter).stagingCellCountBuffer) 4
      = readU32 ((applyCellAdditions s dispatchedCellBuffers
        dispatchedCounter).gpuCellCountBuffer) 4 := by
  refine ⟨?_, ?_, ?_⟩ <;>
    norm_num [applyCellAdditions, readU32, writeBytes, copyBytes, u32le]

/-- C1 (code bug). The failing input: `MAX_CELLS = 1024` (spec section 8,
scenario S1), an empty simulation (`cellCount = 0`, `gpuPendingCellCount = 0`)
whose addition queue holds marker records, and one host batch of 513 cells.
`addCellsToGPUBuffer` admits the batch — its only guard is
`cellCount + newCellCount > MAX_CELLS` — emitting no warning, and returns
with `gpuPendingCellCount = 513 > 512 = MAX_CELLS / 2`; the sub-range upload
covered record index 512, one past the end of the `MAX_CELLS / 2`-record
addition queue (the buffer is allocated `MAX_CELLS * sizeof(ComputeCell) / 2`
bytes as the "worst case scenario" at cell_manager.cpp:206), overwriting the
marker there. -/
theorem addCellsToGPUBuffer_overruns_addition_queue :
    (addCellsToGPUBuffer 1024
        { emptyState with cellAdditionBuffer := fun _ => markerCell }
        (List.replicate 513 ComputeCell.zero)).warningCount = 0
    ∧ (addCellsToGPUBuffer 1024
        { emptyState with cellAdditionBuffer := fun _ => markerCell }
        (List.replicate 513 ComputeCell.zero)).gpuPendingCellCount = 513
    ∧ 1024 / 2 <
        (addCellsToGPUBuffer 1024
          { emptyState with cellAdditionBuffer := fun _ => markerCell }
          (List.replicate 513 ComputeCell.zero)).gpuPendingCellCount
    ∧ (addCellsToGPUBuffer 1024
        { emptyState with cellAdditionBuffer := fun _ => markerCell }
        (List.replicate 513 ComputeCell.zero)).cellAdditionBuffer 512
      ≠ ({ emptyState with cellAdditionBuffer := fun _ => markerCell }
          : CellManagerState).cellAdditionBuffer 512 := by
  refine ⟨rfl, rfl, by decide, ?_⟩
  decide

/-- C2 counterexample: a frame whose previous frame left the device
`pendingCount` at `1 > 0` (the third trace argument), with 5 live cells and
no host-staged cells. The claim says the addition-apply dispatch runs before
the grid, physics, integration and internal stages; in the source's trace it
runs after every one of them. -/
theorem updateCells_applies_after_stages :
    (updateCellsTrace 5 0 1).indexOf FrameEvent.spatialGridUpdate
        < (updateCellsTrace 5 0 1).indexOf FrameEvent.applyAdditions
    ∧ (updateCellsTrace 5 0 1).indexOf FrameEvent.physicsCompute
        < (updateCellsTrace 5 0 1).indexOf FrameEvent.applyAdditions
    ∧ (updateCellsTrace 5 0 1).indexOf FrameEvent.updateCompute
        < (updateCellsTrace 5 0 1).indexOf FrameEvent.applyAdditions
    ∧ (updateCellsTrace 5 0 1).indexOf FrameEvent.internalUpdateCompute
        < (updateCellsTrace 5 0 1).indexOf FrameEvent.applyAdditions := by
  decide

/-- C2 amended: in every frame executed by `updateCells` that observes a
positive `cellCount`, the stages run in the order grid, physics, integration,
internal, and the addition-apply dispatch runs after all of them —
unconditionally, whatever the previous frame left in `pendingCount` — with
buffer rotation the last action of the frame; host-staged cells are uploaded
before the stages when `cpuPendingCellCount > 0`. -/
theorem updateCellsTrace_order (cellCount cpuPendingCellCount
    gpuPendingCellCount : Int) (hc : cellCount > 0) :
    ((updateCellsTrace cellCount cpuPendingCellCount
          gpuPendingCellCount).indexOf FrameEvent.spatialGridUpdate
        < (updateCellsTrace cellCount cpuPendingCellCount
          gpuPendingCellCount).indexOf FrameEvent.physicsCompute
    ∧ (updateCellsTrace cellCount cpuPendingCellCount
          gpuPendingCellCount).indexOf FrameEvent.physicsCompute
        < (updateCellsTrace cellCount cpuPendingCellCount
          gpuPendingCellCount).indexOf FrameEvent.updateCompute
    ∧ (updateCellsTrace cellCount cpuPendingCellCount
          gpuPendingCellCount).indexOf FrameEvent.updateCompute
        < (updateCellsTrace cellCount cpuPendingCellCount
          gpuPendingCellCount).indexOf FrameEvent.internalUpdateCompute
    ∧ (updateCellsTrace cellCount cpuPendingCellCount
          gpuPendingCellCount).indexOf FrameEvent.internalUpdateCompute
        < (updateCellsTrace cellCount cpuPendingCellCount
          gpuPendingCellCount).indexOf FrameEvent.applyAdditions)
    ∧ FrameEvent.applyAdditions
        ∈ updateCellsTrace cellCount cpuPendingCellCount gpuPendingCellCount
    ∧ (cpuPendingCellCount > 0 →
        (updateCellsTrace cellCount cpuPendingCellCount
            gpuPendingCellCount).indexOf FrameEvent.uploadStagedCells
          < (updateCellsTrace cellCount cpuPendingCellCount
            gpuPendingCellCount).indexOf FrameEvent.spatialGridUpdate)
    ∧ (updateCellsTrace cellCount cpuPendingCellCount
          gpuPendingCellCount).getLast? = some FrameEvent.rotateBuffers := by
  unfold updateCellsTrace
  rw [if_pos hc]
  by_cases hp : cpuPendingCellCount > 0
  · rw [if_pos hp]
    refine ⟨by decide, by decide, fun _ => by decide, by decide⟩
  · rw [if_neg hp]
    exact ⟨by decide, by decide, fun h => absurd h hp, by decide⟩

/-- Witness for C2's amended theorem at a frame with 5 live cells, one
host-staged cell and a stale positive device pending count. -/
theorem updateCellsTrace_order_witness :
    (5 : Int) > 0
    ∧ (((updateCellsTrace 5 1 1).indexOf FrameEvent.spatialGridUpdate
          < (updateCellsTrace 5 1 1).indexOf FrameEvent.physicsCompute
      ∧ (updateCellsTrace 5 1 1).indexOf FrameEvent.physicsCompute
          < (updateCellsTrace 5 1 1).indexOf FrameEvent.updateCompute
      ∧ (updateCellsTrace 5 1 1).indexOf FrameEvent.updateCompute
          < (updateCellsTrace 5 1 1).indexOf FrameEvent.internalUpdateCompute
      ∧ (updateCellsTrace 5 1 1).indexOf FrameEvent.internalUpdateCompute
          < (updateCellsTrace 5 1 1).indexOf FrameEvent.applyAdditions)
      ∧ FrameEvent.applyAdditions ∈ updateCellsTrace 5 1 1
      ∧ ((1 : Int) > 0 →
          (updateCellsTrace 5 1 1).indexOf FrameEvent.uploadStagedCells
            < (updateCellsTrace 5 1 1).indexOf FrameEvent.spatialGridUpdate)
      ∧ (updateCellsTrace 5 1 1).getLast? = some FrameEvent.rotateBuffers) :=
  ⟨by decide, updateCellsTrace_order 5 1 1 (by decide)⟩

/-- C8. For an in-range index, `updateCellData` writes the new record to
`cpuCells[index]`, refreshes the selected-cell cache exactly when that index
is selected, writes the record at that index into `cellBuffer[0]` and
`cellBuffer[1]` only — `cellBuffer[2]`, every other record index, and every
other buffer are untouched — whereas the drag path (`dragSelectedCell`)
writes its record to the selected index in all three cell buffers. -/
theorem updateCellData_effect (s : CellManagerState) (index : Int)
    (newData : ComputeCell) (p : Vec3q)
    (h0 : 0 ≤ index) (h1 : index < s.cellCount)
    (hlen : index.toNat < s.cpuCells.length) :
    (updateCellData s index newData).cpuCells
        = s.cpuCells.set index.toNat newData
    ∧ (s.selectedCell.isValid ∧ s.selectedCell.cellIndex = index →
        (updateCellData s index newData).selectedCell
          = { s.selectedCell with cellData := newData })
    ∧ (¬ (s.selectedCell.isValid ∧ s.selectedCell.cellIndex = index) →
        (updateCellData s index newData).selectedCell = s.selectedCell)
    ∧ (∀ i : Fin 3, i.val < 2 →
        (updateCellData s index newData).cellBuffer i index.toNat = newData)
    ∧ (∀ i : Fin 3, ∀ j : Nat, j ≠ index.toNat →
        (updateCellData s index newData).cellBuffer i j = s.cellBuffer i j)
    ∧ (updateCellData s index newData).cellBuffer 2 = s.cellBuffer 2
    ∧ (updateCellData s index newData).cellAdditionBuffer = s.cellAdditionBuffer
    ∧ (updateCellData s index newData).instanceBuffer = s.instanceBuffer
    ∧ (updateCellData s index newData).gridBuffer = s.gridBuffer
    ∧ (updateCellData s index newData).gridCountBuffer = s.gridCountBuffer
    ∧ (updateCellData s index newData).gridOffsetBuffer = s.gridOffsetBuffer
    ∧ (updateCellData s index newData).gpuCellCountBuffer = s.gpuCellCountBuffer
    ∧ (updateCellData s index newData).stagingCellCountBuffer
        = s.stagingCellCountBuffer
    ∧ (updateCellData s index newData).cellCount = s.cellCount
    ∧ (s.selectedCell.isValid = true →
        ∀ i : Fin 3,
          (dragSelectedCell s p).cellBuffer i s.selectedCell.cellIndex.toNat
            = (dragSelectedCell s p).cpuCells.getD
                s.selectedCell.cellIndex.toNat ComputeCell.zero) := by
  have hcond : 0 ≤ index ∧ index < s.cellCount := ⟨h0, h1⟩
  unfold updateCellData
  rw [if_pos hcond]
  dsimp only
  refine ⟨rfl, ?_, ?_, ?_, ?_, ?_, rfl, rfl, rfl, rfl, rfl, rfl, rfl, rfl, ?_⟩
  · intro h
    rw [if_pos h]
  · intro h
    rw [if_neg h]
  · intro i hi
    rw [if_pos hi]
    simp only [writeRecord]
    rw [if_pos trivial]
    exact getD_set_self _ _ _ _ hlen
  · intro i j hj
    by_cases hi : i.val < 2
    · rw [if_pos hi]
      simp only [writeRecord]
      rw [if_neg hj]
    · rw [if_neg hi]
  · rw [if_neg (by decide : ¬ ((2 : Fin 3).val < 2))]
  · intro hv i
    unfold dragSelectedCell
    rw [if_pos hv]
    dsimp only
    simp only [writeRecord]
    rw [if_pos trivial]

/-- Witness for C8: in the one-cell dragged state, index `0` is rewritten in
`cellBuffer[0]` and `cellBuffer[1]` only, and the drag path is checked on the
same state. -/
theorem updateCellData_effect_witness :
    ((0 : Int) ≤ 0 ∧ (0 : Int) < dragState.cellCount
        ∧ (0 : Int).toNat < dragState.cpuCells.length)
    ∧ ((updateCellData dragState 0 massSevenCell).cpuCells
        = dragState.cpuCells.set (0 : Int).toNat massSevenCell)
    ∧ (∀ i : Fin 3, i.val < 2 →
        (updateCellData dragState 0 massSevenCell).cellBuffer i (0 : Int).toNat
          = massSevenCell)
    ∧ (updateCellData dragState 0 massSevenCell).cellBuffer 2
        = dragState.cellBuffer 2
    ∧ (dragState.selectedCell.isValid = true →
        ∀ i : Fin 3,
          (dragSelectedCell dragState ⟨4, 5, 6⟩).cellBuffer i
              dragState.selectedCell.cellIndex.toNat
            = (dragSelectedCell dragState ⟨4, 5, 6⟩).cpuCells.getD
                dragState.selectedCell.cellIndex.toNat ComputeCell.zero) :=
  ⟨⟨by decide, by decide, by decide⟩,
   (updateCellData_effect dragState 0 massSevenCell ⟨4, 5, 6⟩
      (by decide) (by decide) (by decide)).1,
   (updateCellData_effect dragState 0 massSevenCell ⟨4, 5, 6⟩
      (by decide) (by decide) (by decide)).2.2.2.1,
   (updateCellData_effect dragState 0 massSevenCell ⟨4, 5, 6⟩
      (by decide) (by decide) (by decide)).2.2.2.2.2.1,
   (updateCellData_effect dragState 0 massSevenCell ⟨4, 5, 6⟩
      (by decide) (by decide) (by decide)).2.2.2.2.2.2.2.2.2.2.2.2.2.2⟩

/-- C6. While a cell is flagged as dragged (dragging flag set, selection
valid), a call to `dragSelectedCell` with world position `p` leaves the
cell's stored velocity at zero and its stored position equal to `p` in the
CPU mirror, stores the same record at that index in all three GPU cell
buffers, and the uniform the frame driver passes to the physics and
integration dispatches equals the dragged cell's index, so those
(spec-modelled) stages leave the cell's record untouched for every per-cell
transform. -/
theorem dragSelectedCell_stasis (s : CellManagerState) (p : Vec3q)
    (hdrag : s.isDraggingCell = true)
    (hv : s.selectedCell.isValid = true)
    (h0 : 0 ≤ s.selectedCell.cellIndex)
    (hlen : s.selectedCell.cellIndex.toNat < s.cpuCells.length) :
    ((dragSelectedCell s p).cpuCells.getD s.selectedCell.cellIndex.toNat
        ComputeCell.zero).velocity.x = 0
    ∧ ((dragSelectedCell s p).cpuCells.getD s.selectedCell.cellIndex.toNat
        ComputeCell.zero).velocity.y = 0
    ∧ ((dragSelectedCell s p).cpuCells.getD s.selectedCell.cellIndex.toNat
        ComputeCell.zero).velocity.z = 0
    ∧ ((dragSelectedCell s p).cpuCells.getD s.selectedCell.cellIndex.toNat
        ComputeCell.zero).positionAndMass.x = p.x
    ∧ ((dragSelectedCell s p).cpuCells.getD s.selectedCell.cellIndex.toNat
        ComputeCell.zero).positionAndMass.y = p.y
    ∧ ((dragSelectedCell s p).cpuCells.getD s.selectedCell.cellIndex.toNat
        ComputeCell.zero).positionAndMass.z = p.z
    ∧ (∀ i : Fin 3,
        (dragSelectedCell s p).cellBuffer i s.selectedCell.cellIndex.toNat
          = (dragSelectedCell s p).cpuCells.getD
              s.selectedCell.cellIndex.toNat ComputeCell.zero)
    ∧ draggedCellIndexUniform (dragSelectedCell s p) = s.selectedCell.cellIndex
    ∧ (∀ (f : Nat → ComputeCell → ComputeCell) (liveCount : Nat)
          (buf : Nat → ComputeCell),
        stageApplyPerCell f (draggedCellIndexUniform (dragSelectedCell s p))
            liveCount buf s.selectedCell.cellIndex.toNat
          = buf s.selectedCell.cellIndex.toNat) := by
  have hgetD :
      (dragSelectedCell s p).cpuCells.getD s.selectedCell.cellIndex.toNat
          ComputeCell.zero
        = { s.cpuCells.getD s.selectedCell.cellIndex.toNat ComputeCell.zero with
            positionAndMass :=
              ⟨p.x, p.y, p.z,
               (s.cpuCells.getD s.selectedCell.cellIndex.toNat
                  ComputeCell.zero).positionAndMass.w⟩
            velocity :=
              ⟨0, 0, 0,
               (s.cpuCells.getD s.selectedCell.cellIndex.toNat
                  ComputeCell.zero).velocity.w⟩ } := by
    unfold dragSelectedCell
    rw [if_pos hv]
    exact getD_set_self _ _ _ _ hlen
  have huni :
      draggedCellIndexUniform (dragSelectedCell s p)
        = s.selectedCell.cellIndex := by
    unfold dragSelectedCell
    rw [if_pos hv]
    unfold draggedCellIndexUniform
    rw [if_pos ⟨hdrag, hv⟩]
  refine ⟨?_, ?_, ?_, ?_, ?_, ?_, ?_, huni, ?_⟩
  · rw [hgetD]
  · rw [hgetD]
  · rw [hgetD]
  · rw [hgetD]
  · rw [hgetD]
  · rw [hgetD]
  · intro i
    unfold dragSelectedCell
    rw [if_pos hv]
    dsimp only
    simp only [writeRecord]
    rw [if_pos trivial]
  · intro f liveCount buf
    unfold stageApplyPerCell
    split_ifs with h
    · exact absurd ((Int.toNat_of_nonneg h0).trans huni.symm) h.2
    · rfl

/-- Witness for C6: the one-cell dragged state, dragged to `(10, 20, 30)`. -/
theorem dragSelectedCell_stasis_witness :
    (dragState.isDraggingCell = true
      ∧ dragState.selectedCell.isValid = true
      ∧ (0 : Int) ≤ dragState.selectedCell.cellIndex
      ∧ dragState.selectedCell.cellIndex.toNat < dragState.cpuCells.length)
    ∧ ((dragSelectedCell dragState ⟨10, 20, 30⟩).cpuCells.getD
        dragState.selectedCell.cellIndex.toNat ComputeCell.zero).velocity.x = 0
    ∧ ((dragSelectedCell dragState ⟨10, 20, 30⟩).cpuCells.getD
        dragState.selectedCell.cellIndex.toNat
          ComputeCell.zero).positionAndMass.x = (⟨10, 20, 30⟩ : Vec3q).x
    ∧ (∀ i : Fin 3,
        (dragSelectedCell dragState ⟨10, 20, 30⟩).cellBuffer i
            dragState.selectedCell.cellIndex.toNat
          = (dragSelectedCell dragState ⟨10, 20, 30⟩).cpuCells.getD
              dragState.selectedCell.cellIndex.toNat ComputeCell.zero)
    ∧ draggedCellIndexUniform (dragSelectedCell dragState ⟨10, 20, 30⟩)
        = dragState.selectedCell.cellIndex :=
  ⟨⟨by decide, by decide, by decide, by decide⟩,
   (dragSelectedCell_stasis dragState ⟨10, 20, 30⟩
      (by decide) (by decide) (by decide) (by decide)).1,
   (dragSelectedCell_stasis dragState ⟨10, 20, 30⟩
      (by decide) (by decide) (by decide) (by decide)).2.2.2.1,
   (dragSelectedCell_stasis dragState ⟨10, 20, 30⟩
      (by decide) (by decide) (by decide) (by decide)).2.2.2.2.2.2.1,
   (dragSelectedCell_stasis dragState ⟨10, 20, 30⟩
      (by decide) (by decide) (by decide) (by decide)).2.2.2.2.2.2.2.1⟩

/-- Writing the zero pair over bytes `[0, 4)` and `[4, 8)` is idempotent. -/
theorem writeBytes_zero_pair_idem (f : Nat → Nat) :
    writeBytes (writeBytes
        (writeBytes (writeBytes f 0 (u32le 0)) 4 (u32le 0)) 0 (u32le 0))
      4 (u32le 0)
    = writeBytes (writeBytes f 0 (u32le 0)) 4 (u32le 0) := by
  have hz : u32le 0 = [0, 0, 0, 0] := rfl
  rw [hz]
  funext j
  simp only [writeBytes, List.length_cons, List.length_nil]
  by_cases h1 : 4 ≤ j ∧ j < 4 + (0 + 1 + 1 + 1 + 1)
  · have hl : 4 ≤ j := h1.1
    have hr : j < 8 := by omega
    rw [if_pos h1, if_pos h1]
    interval_cases j <;> rfl
  · rw [if_neg h1, if_neg h1]
    by_cases h2 : 0 ≤ j ∧ j < 0 + (0 + 1 + 1 + 1 + 1)
    · have hl : 0 ≤ j := h2.1
      have hr : j < 4 := by omega
      rw [if_pos h2, if_pos h2]
      interval_cases j <;> rfl
    · rw [if_neg h2, if_neg h2]

/-- Re-copying the same source over an already-copied range is absorbed. -/
theorem copyBytes_absorb (a c b : Nat → Nat) (n : Nat) :
    copyBytes a (copyBytes c b n) n = copyBytes a b n := by
  funext j
  simp only [copyBytes]
  by_cases h : j < n
  · rw [if_pos h, if_pos h]
  · rw [if_neg h, if_neg h, if_neg h]

/-- C7. `resetSimulation` is idempotent: running it twice from any state
produces exactly the state a single run produces — the cleared CPU vectors
and counters, rotation index 0, cleared selection, byte-zeroed device
counter pair, zero-filled cell, instance, addition-queue and grid buffers,
and the staging mirror synced from the zeroed pair. -/
theorem resetSimulation_idempotent (s : CellManagerState) :
    resetSimulation (resetSimulation s) = resetSimulation s := by
  unfold resetSimulation clearSelection
  dsimp only
  congr 1
  · exact writeBytes_zero_pair_idem s.gpuCellCountBuffer
  · rw [writeBytes_zero_pair_idem s.gpuCellCountBuffer]
    exact copyBytes_absorb _ _ _ 8

/-- C10. For a ray whose direction is not degenerate, `raySphereIntersection`
returns a hit exactly when the quadratic
`dot(rayOrigin + t * rayDirection - sphereCenter) = sphereRadius^2` has a real
root `t > 0.001`, and the returned distance is the smallest such root — the
near intersection when it exceeds the epsilon, otherwise the far one. -/
theorem raySphereIntersection_correct
    (rayOrigin rayDirection sphereCenter : Vec3) (sphereRadius : ℝ)
    (hd : Vec3.dot rayDirection rayDirection ≠ 0) :
    ((raySphereIntersection rayOrigin rayDirection sphereCenter
          sphereRadius).isSome
        ↔ ∃ t : ℝ, t > 0.001
            ∧ sphereHit rayOrigin rayDirection sphereCenter sphereRadius t)
    ∧ ∀ d : ℝ,
        raySphereIntersection rayOrigin rayDirection sphereCenter sphereRadius
            = some d →
          d > 0.001
          ∧ sphereHit rayOrigin rayDirection sphereCenter sphereRadius d
          ∧ ∀ t : ℝ, t > 0.001 →
              sphereHit rayOrigin rayDirection sphereCenter sphereRadius t →
              d ≤ t := by
  simp only [raySphereIntersection]
  set oc := Vec3.sub rayOrigin sphereCenter with hoc
  set A := Vec3.dot rayDirection rayDirection with hA
  set B := 2 * Vec3.dot oc rayDirection with hB
  set C := Vec3.dot oc oc - sphereRadius * sphereRadius with hC
  have hA0 : 0 ≤ A := by
    rw [hA]
    unfold Vec3.dot
    nlinarith [mul_self_nonneg rayDirection.x, mul_self_nonneg rayDirection.y,
      mul_self_nonneg rayDirection.z]
  have hApos : 0 < A := lt_of_le_of_ne hA0 (Ne.symm hd)
  have hquad : ∀ t : ℝ,
      sphereHit rayOrigin rayDirection sphereCenter sphereRadius t
        ↔ A * (t * t) + B * t + C = 0 := by
    intro t
    unfold sphereHit rayPoint
    rw [hA, hB, hC, hoc]
    unfold Vec3.dot Vec3.sub Vec3.add Vec3.smul
    dsimp only
    constructor
    · intro h
      linear_combination h
    · intro h
      linear_combination h
  split_ifs with h1 h2 h3
  · -- discriminant negative: no intersection, and no real root exists
    have hnoroot : ∀ t : ℝ, ¬ (A * (t * t) + B * t + C = 0) := by
      intro t
      refine quadratic_ne_zero_of_discrim_ne_sq (fun s => ?_) t
      intro heq
      rw [discrim] at heq
      nlinarith [sq_nonneg s, sq_nonneg B]
    constructor
    · simp only [Option.isSome_none, Bool.false_eq_true, false_iff]
      rintro ⟨t, -, hhit⟩
      exact hnoroot t ((hquad t).mp hhit)
    · intro d hcontra
      exact absurd hcontra (by simp)
  all_goals
    have hd0 : (0 : ℝ) ≤ B * B - 4 * A * C := le_of_not_lt h1
  all_goals
    set S := Real.sqrt (B * B - 4 * A * C) with hSdef
  all_goals
    have hSS : S * S = B * B - 4 * A * C := Real.mul_self_sqrt hd0
  all_goals
    have hS0 : (0 : ℝ) ≤ S := Real.sqrt_nonneg _
  all_goals
    have hdiscrim : discrim A B C = S * S := by
      rw [discrim, pow_two]
      linarith [hSS]
  all_goals
    have hroots : ∀ x : ℝ, A * (x * x) + B * x + C = 0
        ↔ x = (-B + S) / (2 * A) ∨ x = (-B - S) / (2 * A) :=
      fun x => quadratic_eq_zero_iff hApos.ne' hdiscrim x
  all_goals
    have ht12 : (-B - S) / (2 * A) ≤ (-B + S) / (2 * A) :=
      (div_le_div_iff_of_pos_right (by linarith)).mpr (by linarith)
  · -- near root exceeds the epsilon: returns the near root
    constructor
    · simp only [Option.isSome_some, true_iff]
      exact ⟨(-B - S) / (2 * A), h2,
        (hquad _).mpr ((hroots _).mpr (Or.inr rfl))⟩
    · intro d hsome
      injection hsome with hdval
      subst hdval
      refine ⟨h2, (hquad _).mpr ((hroots _).mpr (Or.inr rfl)), ?_⟩
      intro t ht hhit
      rcases (hroots t).mp ((hquad t).mp hhit) with h | h
      · rw [h]
        exact ht12
      · rw [h]
  · -- near root below the epsilon, far root above: returns the far root
    constructor
    · simp only [Option.isSome_some, true_iff]
      exact ⟨(-B + S) / (2 * A), h3,
        (hquad _).mpr ((hroots _).mpr (Or.inl rfl))⟩
    · intro d hsome
      injection hsome with hdval
      subst hdval
      refine ⟨h3, (hquad _).mpr ((hroots _).mpr (Or.inl rfl)), ?_⟩
      intro t ht hhit
      rcases (hroots t).mp ((hquad t).mp hhit) with h | h
      · rw [h]
      · exfalso
        rw [h] at ht
        exact h2 ht
  · -- both roots below the epsilon: no intersection past the epsilon exists
    constructor
    · simp only [Option.isSome_none, Bool.false_eq_true, false_iff]
      rintro ⟨t, ht, hhit⟩
      rcases (hroots t).mp ((hquad t).mp hhit) with h | h
      · rw [h] at ht
        exact h3 ht
      · rw [h] at ht
        exact h2 ht
    · intro d hcontra
      exact absurd hcontra (by simp)

/-- Witness for C10: the ray from the origin along `+x` against the unit
sphere centered at `(5, 0, 0)` (roots `t = 4` and `t = 6`). -/
theorem raySphereIntersection_correct_witness :
    Vec3.dot (⟨1, 0, 0⟩ : Vec3) ⟨1, 0, 0⟩ ≠ 0
    ∧ (((raySphereIntersection ⟨0, 0, 0⟩ ⟨1, 0, 0⟩ ⟨5, 0, 0⟩ 1).isSome
        ↔ ∃ t : ℝ, t > 0.001 ∧ sphereHit ⟨0, 0, 0⟩ ⟨1, 0, 0⟩ ⟨5, 0, 0⟩ 1 t)
      ∧ ∀ d : ℝ,
          raySphereIntersection ⟨0, 0, 0⟩ ⟨1, 0, 0⟩ ⟨5, 0, 0⟩ 1 = some d →
            d > 0.001
            ∧ sphereHit ⟨0, 0, 0⟩ ⟨1, 0, 0⟩ ⟨5, 0, 0⟩ 1 d
            ∧ ∀ t : ℝ, t > 0.001 →
                sphereHit ⟨0, 0, 0⟩ ⟨1, 0, 0⟩ ⟨5, 0, 0⟩ 1 t → d ≤ t) :=
  ⟨by norm_num [Vec3.dot],
   raySphereIntersection_correct ⟨0, 0, 0⟩ ⟨1, 0, 0⟩ ⟨5, 0, 0⟩ 1
     (by norm_num [Vec3.dot])⟩

end Biospheres
